import Mathlib

/-!
Shallow embedding of the aggregation / simulation core of the
Personal-Investment-Tracker Flask application (src/app.py, src/init_db.py).

Monetary amounts are modelled as exact rationals (ℚ).  Nullable SQL columns
are modelled as `Option ℚ` / `Option String`.  The Python idiom `x or 0.0`
(which maps both `None` and `0.0` to `0.0`) is modelled by `Option.getD 0`,
which agrees with it on rationals.  Row order of a store query is modelled
by the order of the corresponding Lean list.
-/

namespace InvestmentTracker

/-- A row of the `users` table (init_db.py). -/
structure User where
  user_id : Nat
  name : String
deriving DecidableEq

/-- A row of the `platforms` table (init_db.py). -/
structure Platform where
  platform_id : Nat
  name : String
deriving DecidableEq

/-- A row of the `accounts` table (init_db.py). -/
structure Account where
  account_id : Nat
  user_id : Nat
  platform_id : Nat
  account_type : String
  account_name : String
  cash_balance : Option ℚ
deriving DecidableEq

/-- A row of the `assets` table (init_db.py). -/
structure Asset where
  asset_id : Nat
  account_id : Nat
  ticker_symbol : String
  name : Option String
  quantity : Option ℚ
  average_cost : Option ℚ
  total_invested : Option ℚ
  current_price : Option ℚ
  price_yesterday : Option ℚ
  fifty_two_week_high : Option ℚ
  fifty_two_week_low : Option ℚ
deriving DecidableEq

/-- The persistent store contents the dashboard reads (list order stands for
the row order returned by the store). -/
structure DB where
  users : List User
  platforms : List Platform
  accounts : List Account
  assets : List Asset
deriving DecidableEq

/-- The derived per-asset metrics computed identically at app.py:207-236 (the
dashboard loop) and app.py:986-1012 (the manage-assets page loop). -/
structure AssetMetrics where
  total_invested : ℚ
  quantity : ℚ
  current_value : ℚ
  profit_loss_dollars : ℚ
  profit_loss_percent : ℚ
  day_change_percent : ℚ
  percent_to_52_week_high : Option ℚ
deriving DecidableEq

/-- Per-asset derivation, app.py:211-231 / 990-1010: `total_invested` and
`quantity` default to 0 when null; `current_value` is 0 when the price is
unknown; `profit_loss_percent` divides only under the `total_invested > 0`
guard; `day_change_percent` defaults to the number 0; the distance to the
52-week high stays absent (`none`) when undefined. -/
def assetMetrics (a : Asset) : AssetMetrics :=
  let ti := a.total_invested.getD 0
  let q := a.quantity.getD 0
  let cv : ℚ := match a.current_price with
    | none => 0
    | some p => q * p
  let pld := cv - ti
  let plp : ℚ := if ti > 0 then pld / ti * 100 else 0
  let dcp : ℚ := match a.current_price, a.price_yesterday with
    | some cp, some py => if py > 0 then (cp - py) / py * 100 else 0
    | _, _ => 0
  let pth : Option ℚ := match a.current_price, a.fifty_two_week_high with
    | some cp, some h => if h > 0 then some ((cp - h) / h * 100) else none
    | _, _ => none
  ⟨ti, q, cv, pld, plp, dcp, pth⟩

/-- One element of `all_assets_detailed` (app.py:193-233): an asset row joined
to its account, user and platform, with the derived metrics attached. -/
structure AssetDetail where
  asset_id : Nat
  account_id : Nat
  user_id : Nat
  platform_id : Nat
  account_type : String
  user_name : String
  platform_name : String
  metrics : AssetMetrics
deriving DecidableEq

/-- The join of one asset row with its account, user and platform
(the FROM/JOIN clauses of the dashboard query, app.py:193-204); `none` when a
parent row is missing (the inner join drops the row). -/
def joinRow (db : DB) (a : Asset) : Option AssetDetail :=
  match db.accounts.find? (fun acc => acc.account_id == a.account_id) with
  | none => none
  | some acc =>
    match db.users.find? (fun u => u.user_id == acc.user_id) with
    | none => none
    | some u =>
      match db.platforms.find? (fun p => p.platform_id == acc.platform_id) with
      | none => none
      | some p =>
        some { asset_id := a.asset_id
               account_id := a.account_id
               user_id := acc.user_id
               platform_id := acc.platform_id
               account_type := acc.account_type
               user_name := u.name
               platform_name := p.name
               metrics := assetMetrics a }

/-- `all_assets_detailed`, app.py:205-233. -/
def allAssetsDetailed (db : DB) : List AssetDetail :=
  db.assets.filterMap (joinRow db)

/-- The running-sum accumulation pattern (`x += ...` inside a loop) used by
the dashboard for every total. -/
def accumulate (f : α → ℚ) (l : List α) : ℚ :=
  l.foldl (fun s x => s + f x) 0

/-- `global_total_invested_assets`, app.py:188/235. -/
def globalTotalInvested (db : DB) : ℚ :=
  accumulate (fun d => d.metrics.total_invested) (allAssetsDetailed db)

/-- `global_current_value_of_assets`, app.py:189/236. -/
def globalCurrentValue (db : DB) : ℚ :=
  accumulate (fun d => d.metrics.current_value) (allAssetsDetailed db)

/-- `global_total_cash`, app.py:256-258 (SQL SUM treats null balances as 0). -/
def globalTotalCash (db : DB) : ℚ :=
  accumulate (fun a => a.cash_balance.getD 0) db.accounts

/-- `global_profit_loss_amount`, app.py:262. -/
def globalProfitLossAmount (db : DB) : ℚ :=
  globalCurrentValue db - globalTotalInvested db

/-- `global_profit_loss_percent`, app.py:263. -/
def globalProfitLossPercent (db : DB) : ℚ :=
  if globalTotalInvested db > 0 then
    globalProfitLossAmount db / globalTotalInvested db * 100
  else 0

/-- `overall_portfolio_value`, app.py:264. -/
def overallPortfolioValue (db : DB) : ℚ :=
  globalCurrentValue db + globalTotalCash db

/-- `account_summary_data`, app.py:351-370. -/
structure AccountSummary where
  account_id : Nat
  account_name : String
  account_type : String
  cash_balance : ℚ
  total_invested : ℚ
  current_value_of_assets : ℚ
  assets : List AssetDetail
  profit_loss_amount : ℚ
  profit_loss_percent : ℚ
deriving DecidableEq

/-- `platform_summary_data`, app.py:335-391. -/
structure PlatformSummary where
  platform_name : String
  total_invested : ℚ
  current_value_of_assets : ℚ
  total_cash : ℚ
  accounts : List AccountSummary
  profit_loss_amount : ℚ
  profit_loss_percent : ℚ
deriving DecidableEq

/-- `user_summary_data`, app.py:320-400. -/
structure UserSummary where
  user_id : Nat
  user_name : String
  total_invested : ℚ
  current_value_of_assets : ℚ
  total_cash : ℚ
  platforms : List PlatformSummary
  profit_loss_amount : ℚ
  profit_loss_percent : ℚ
deriving DecidableEq

/-- Account rollup, app.py:351-370: filter `all_assets_detailed` to this
account, accumulate invested and current value, then derive profit/loss with
the `total_invested > 0` division guard. -/
def accountSummary (details : List AssetDetail) (acc : Account) : AccountSummary :=
  let assetsIn := details.filter (fun d => d.account_id == acc.account_id)
  let ti := accumulate (fun d => d.metrics.total_invested) assetsIn
  let cv := accumulate (fun d => d.metrics.current_value) assetsIn
  { account_id := acc.account_id
    account_name := acc.account_name
    account_type := acc.account_type
    cash_balance := acc.cash_balance.getD 0
    total_invested := ti
    current_value_of_assets := cv
    assets := assetsIn
    profit_loss_amount := cv - ti
    profit_loss_percent := if ti > 0 then (cv - ti) / ti * 100 else 0 }

/-- The accounts of one user on one platform, app.py:344-349 (the ORDER BY is
presentation only; list order stands for store order). -/
def accountsOnPlatform (db : DB) (u : User) (p : Platform) : List Account :=
  db.accounts.filter (fun a => a.user_id == u.user_id && a.platform_id == p.platform_id)

/-- Platform rollup, app.py:335-391: summarise each account of the user on
this platform, accumulate the account totals, then derive profit/loss. -/
def platformSummary (db : DB) (details : List AssetDetail) (u : User) (p : Platform) :
    PlatformSummary :=
  let accs := (accountsOnPlatform db u p).map (accountSummary details)
  let ti := accumulate (fun a => a.total_invested) accs
  let cv := accumulate (fun a => a.current_value_of_assets) accs
  let cash := accumulate (fun a => a.cash_balance) accs
  { platform_name := p.name
    total_invested := ti
    current_value_of_assets := cv
    total_cash := cash
    accounts := accs
    profit_loss_amount := cv - ti
    profit_loss_percent := if ti > 0 then (cv - ti) / ti * 100 else 0 }

/-- The DISTINCT platforms on which a user has at least one account,
app.py:328-333. -/
def userPlatforms (db : DB) (u : User) : List Platform :=
  db.platforms.filter (fun p =>
    db.accounts.any (fun a => a.user_id == u.user_id && a.platform_id == p.platform_id))

/-- User rollup, app.py:320-400: summarise each platform of the user,
accumulate the platform totals, then derive profit/loss. -/
def userSummary (db : DB) (details : List AssetDetail) (u : User) : UserSummary :=
  let plats := (userPlatforms db u).map (platformSummary db details u)
  let ti := accumulate (fun p => p.total_invested) plats
  let cv := accumulate (fun p => p.current_value_of_assets) plats
  let cash := accumulate (fun p => p.total_cash) plats
  { user_id := u.user_id
    user_name := u.name
    total_invested := ti
    current_value_of_assets := cv
    total_cash := cash
    platforms := plats
    profit_loss_amount := cv - ti
    profit_loss_percent := if ti > 0 then (cv - ti) / ti * 100 else 0 }

/-- `breakdown_data`, app.py:316-402: one summary per user row. -/
def breakdownData (db : DB) : List UserSummary :=
  db.users.map (userSummary db (allAssetsDetailed db))

/-- One element of `all_accounts_performance_data`, app.py:372-382. -/
structure AccountPerf where
  user_name : String
  platform_name : String
  account_name : String
  display_name : String
  total_invested : ℚ
  current_value_of_assets : ℚ
  total_value : ℚ
  profit_loss_dollars : ℚ
  profit_loss_percent : ℚ
deriving DecidableEq

/-- The per-account performance record appended at app.py:372-382. -/
def accountPerf (details : List AssetDetail) (u : User) (p : Platform) (acc : Account) :
    AccountPerf :=
  let s := accountSummary details acc
  { user_name := u.name
    platform_name := p.name
    account_name := acc.account_name
    display_name := u.name ++ " - " ++ acc.account_name ++ " (" ++ p.name ++ ")"
    total_invested := s.total_invested
    current_value_of_assets := s.current_value_of_assets
    total_value := s.current_value_of_assets + s.cash_balance
    profit_loss_dollars := s.profit_loss_amount
    profit_loss_percent := s.profit_loss_percent }

/-- `all_accounts_performance_data`, app.py:317/372-382, gathered in the same
user → platform → account nesting order as the breakdown loops. -/
def allAccountsPerformance (db : DB) : List AccountPerf :=
  let details := allAssetsDetailed db
  db.users.flatMap (fun u =>
    (userPlatforms db u).flatMap (fun p =>
      (accountsOnPlatform db u p).map (accountPerf details u p)))

/-- Insert `x` into `l` before the first element whose key is ≤ `key x`
(so among equal keys the earlier input element stays first). -/
def insertDescBy (key : α → ℚ) (x : α) : List α → List α
  | [] => [x]
  | y :: ys => if key y ≤ key x then x :: y :: ys else y :: insertDescBy key x ys

/-- Stable descending sort by a rational key: the model of Python's stable
`sorted(l, key=..., reverse=True)` used at app.py:243 and app.py:441-445. -/
def sortDescBy (key : α → ℚ) : List α → List α
  | [] => []
  | x :: xs => insertDescBy key x (sortDescBy key xs)

/-- `valid_assets_for_ranking`, app.py:241: `profit_loss_percent` is set on
every detailed asset (never null), so the filter reduces to
`total_invested > 0`. -/
def validAssetsForRanking (db : DB) : List AssetDetail :=
  (allAssetsDetailed db).filter (fun d => decide (0 < d.metrics.total_invested))

/-- `all_assets_ranked` / `sorted_assets`, app.py:243-254. -/
def allAssetsRanked (db : DB) : List AssetDetail :=
  sortDescBy (fun d => d.metrics.profit_loss_percent) (validAssetsForRanking db)

/-- `best_performing_asset = sorted_assets[0]`, app.py:245 (None when no
asset qualifies, app.py:238-254). -/
def bestPerformingAsset (db : DB) : Option AssetDetail :=
  (allAssetsRanked db).head?

/-- `worst_performing_asset = sorted_assets[-1]`, app.py:248. -/
def worstPerformingAsset (db : DB) : Option AssetDetail :=
  (allAssetsRanked db).getLast?

/-- `all_accounts_ranked_by_performance`, app.py:440-448: filter to accounts
with positive invested capital (the percent is always set), sort descending. -/
def allAccountsRanked (db : DB) : List AccountPerf :=
  sortDescBy (fun a => a.profit_loss_percent)
    ((allAccountsPerformance db).filter (fun a => decide (0 < a.total_invested)))

/-- One step of the `account_type_values` dict accumulation, app.py:413-415:
add `v` to the existing entry for `k`, or append a new entry (Python dicts
keep insertion order). -/
def addGroup (groups : List (String × ℚ)) (k : String) (v : ℚ) : List (String × ℚ) :=
  if groups.any (fun g => g.1 == k) then
    groups.map (fun g => if g.1 == k then (g.1, g.2 + v) else g)
  else groups ++ [(k, v)]

/-- The flattened account summaries in breakdown order, as traversed by the
triple loop at app.py:406-415. -/
def breakdownAccountSummaries (db : DB) : List AccountSummary :=
  (breakdownData db).flatMap (fun us => us.platforms.flatMap (fun ps => ps.accounts))

/-- `account_type_values`, app.py:404-415. -/
def accountTypeValues (db : DB) : List (String × ℚ) :=
  (breakdownAccountSummaries db).foldl
    (fun gs acc => addGroup gs acc.account_type (acc.current_value_of_assets + acc.cash_balance))
    []

/-- Shared pattern of the three allocation charts, app.py:417-438: keep the
groups with positive total; a header-only chart (no positive group) is
reported as the empty list. -/
def chartRows (vals : List (String × ℚ)) : List (String × ℚ) :=
  let rows := vals.filter (fun g => decide (0 < g.2))
  if rows.isEmpty then [] else rows

/-- The data rows of the account-type allocation chart, app.py:417-422. -/
def accountTypeChart (db : DB) : List (String × ℚ) :=
  chartRows (accountTypeValues db)

/-- The per-user (label, value) pairs considered for the user allocation
chart, app.py:424-430. -/
def userAllocValues (db : DB) : List (String × ℚ) :=
  (breakdownData db).map (fun us => (us.user_name, us.current_value_of_assets + us.total_cash))

/-- The data rows of the user allocation chart, app.py:424-431. -/
def userAllocChart (db : DB) : List (String × ℚ) :=
  chartRows (userAllocValues db)

/-- The per-account (label, value) pairs considered for the individual-account
allocation chart, app.py:433-437. -/
def accountAllocValues (db : DB) : List (String × ℚ) :=
  (allAccountsPerformance db).map (fun ap => (ap.display_name, ap.total_value))

/-- The data rows of the individual-account allocation chart, app.py:433-438. -/
def accountAllocChart (db : DB) : List (String × ℚ) :=
  chartRows (accountAllocValues db)

/-- A row of the `portfolio_history` table (init_db.py:72-75). -/
structure Snapshot where
  snapshot_date : String
  total_portfolio_value : ℚ
deriving DecidableEq

/-- The daily-snapshot side effect of a dashboard run, app.py:266-272: if a
row for today's date exists, do nothing; otherwise insert exactly one row
with the just-computed overall portfolio value. -/
def snapshotStep (history : List Snapshot) (today : String) (value : ℚ) : List Snapshot :=
  if history.any (fun s => s.snapshot_date == today) then history
  else history ++ [⟨today, value⟩]

/-- At most one `portfolio_history` row per calendar date (the PRIMARY KEY
constraint of init_db.py:72-75). -/
def atMostOnePerDate (history : List Snapshot) : Prop :=
  ∀ d, (history.filter (fun s => s.snapshot_date == d)).length ≤ 1

/-- The failure conditions of the sell simulation, app.py:857-860. -/
inductive SellError
  | assetNotFound
  | negativePrice
deriving DecidableEq

/-- `sell_simulation_results`, app.py:873-880. -/
structure SellResult where
  asset_id : Nat
  hypothetical_sale_price : ℚ
  total_proceeds : ℚ
  original_cost : ℚ
  profit_dollars : ℚ
  profit_percent : ℚ
deriving DecidableEq

/-- `original_cost`, app.py:862-867: `total_invested`, falling back to
`quantity × average_cost` when it is null, and to 0 when `average_cost` is
null as well (the `quantity` read at app.py:862 is never None after `or 0`). -/
def originalCost (a : Asset) : ℚ :=
  match a.total_invested with
  | some ti => ti
  | none =>
    match a.average_cost with
    | some ac => a.quantity.getD 0 * ac
    | none => 0

/-- The sell simulation, app.py:842-881, for a numeric request: look the
asset up, reject a missing asset or a negative price, otherwise compute
proceeds and profit with the `original_cost > 0` division guard. -/
def simulateSell (assets : List Asset) (aid : Nat) (price : ℚ) :
    Except SellError SellResult :=
  match assets.find? (fun a => a.asset_id == aid) with
  | none => .error .assetNotFound
  | some a =>
    if price < 0 then .error .negativePrice
    else
      let quantity := a.quantity.getD 0
      let oc := originalCost a
      let proceeds := quantity * price
      let pd := proceeds - oc
      .ok { asset_id := aid
            hypothetical_sale_price := price
            total_proceeds := proceeds
            original_cost := oc
            profit_dollars := pd
            profit_percent := if oc > 0 then pd / oc * 100 else 0 }

/-- A numeric form field: empty, present but not a number, or a number
(the three behaviours of `request.form.get(...)` + `float(...)`). -/
inductive FormNum
  | absent
  | invalid
  | num (q : ℚ)
deriving DecidableEq

/-- `buy_simulation_results`, app.py:954-967. -/
structure BuyResult where
  asset_id : Nat
  ticker_symbol : String
  shares_purchased : ℚ
  cost_of_purchase : ℚ
  new_total_quantity : ℚ
  new_total_invested : ℚ
  new_average_cost : ℚ
  new_current_total_value : ℚ
  new_profit_loss_dollars : ℚ
  new_profit_loss_percent : ℚ
  current_profit_loss_dollars : ℚ
  current_profit_loss_percent : ℚ
deriving DecidableEq

/-- The projection block of the buy simulation, app.py:938-967, given the
found asset, its (non-null) price, the shares purchased and their cost. -/
def mkBuyResult (a : Asset) (price shares cost : ℚ) : BuyResult :=
  let q := a.quantity.getD 0
  let ti := a.total_invested.getD 0
  let ntq := q + shares
  let nti := ti + cost
  let ncv := ntq * price
  let npd := ncv - nti
  let cav := q * price
  let cpd := cav - ti
  { asset_id := a.asset_id
    ticker_symbol := a.ticker_symbol
    shares_purchased := shares
    cost_of_purchase := cost
    new_total_quantity := ntq
    new_total_invested := nti
    new_average_cost := if ntq > 0 then nti / ntq else 0
    new_current_total_value := ncv
    new_profit_loss_dollars := npd
    new_profit_loss_percent := if nti > 0 then npd / nti * 100 else 0
    current_profit_loss_dollars := cpd
    current_profit_loss_percent :=
      if ti > 0 then cpd / (if ti = 0 then 1 else ti) * 100 else 0 }

/-- The observable outcome of one buy-simulation request,
app.py:889-975: which flash fires, or the computed results, or nothing
(`silentNoResult`: inputs accepted but `shares_purchased ≤ 0`, app.py:938). -/
inductive BuyOutcome
  | errInputRequired
  | errAssetNotFound
  | warnPriceUnavailable
  | errInvalidNumber
  | warnNonPositiveAmount
  | warnNonPositiveShares
  | errDivisionByZero
  | silentNoResult
  | ok (r : BuyResult)
deriving DecidableEq

/-- The buy simulation, app.py:889-975, for a request naming asset `aid`:
the both-inputs-absent check (app.py:902) runs before the asset lookup; the
price-availability check (app.py:914) runs before the numeric inputs are
parsed; a division by a zero price (app.py:927) raises and is reported as a
generic error. -/
def simulateBuy (assets : List Asset) (aid : Nat) (inv shr : FormNum) : BuyOutcome :=
  if inv = .absent ∧ shr = .absent then .errInputRequired
  else
    match assets.find? (fun a => a.asset_id == aid) with
    | none => .errAssetNotFound
    | some a =>
      match a.current_price with
      | none => .warnPriceUnavailable
      | some price =>
        match inv with
        | .invalid => .errInvalidNumber
        | .num amt =>
          if amt ≤ 0 then .warnNonPositiveAmount
          else if price = 0 then .errDivisionByZero
          else
            let shares := amt / price
            if shares > 0 then .ok (mkBuyResult a price shares (shares * price))
            else .silentNoResult
        | .absent =>
          match shr with
          | .invalid => .errInvalidNumber
          | .absent => .errInputRequired
          | .num s =>
            if s ≤ 0 then .warnNonPositiveShares
            else .ok (mkBuyResult a price s (s * price))

/-- A raw numeric field as assembled from the finance-data provider's
response before coercion (app.py:55-61): absent, a number, or some
non-numeric value. -/
inductive GVal
  | missing
  | num (q : ℚ)
  | nonNumeric
deriving DecidableEq

/-- The provider response dict assembled at app.py:55-61, before the
defensive numeric coercion. -/
structure RawQuote where
  current_price : GVal
  price_yesterday : GVal
  fifty_two_week_high : GVal
  fifty_two_week_low : GVal
  name : Option String
deriving DecidableEq

/-- The defensive coercion of app.py:63-66: only a numeric value survives;
a missing or non-numeric field becomes None. -/
def coerceNum : GVal → Option ℚ
  | .num q => some q
  | _ => none

/-- The value returned by `fetch_market_data`, app.py:43-71. -/
structure Quote where
  current_price : Option ℚ
  price_yesterday : Option ℚ
  fifty_two_week_high : Option ℚ
  fifty_two_week_low : Option ℚ
  name : Option String
deriving DecidableEq

/-- `fetch_market_data`, app.py:43-71: None when the provider call raised;
otherwise the assembled dict with every non-numeric numeric field coerced
to None. -/
def fetch_market_data (resp : Option RawQuote) : Option Quote :=
  resp.map (fun r =>
    { current_price := coerceNum r.current_price
      price_yesterday := coerceNum r.price_yesterday
      fifty_two_week_high := coerceNum r.fifty_two_week_high
      fifty_two_week_low := coerceNum r.fifty_two_week_low
      name := r.name })

/-- The category of the flash message the refresh reports. -/
inductive FlashKind
  | success
  | warning
deriving DecidableEq

/-- Python string truthiness for an optional name: None and "" are falsy. -/
def strTruthy : Option String → Bool
  | none => false
  | some s => s != ""

/-- The single-asset refresh, app.py:1137-1174 (store writes always succeed
in this model; store errors are out of scope): when the fetch fails the row
is untouched and a warning is flashed; when it succeeds every price field is
overwritten with the fetched (coerced) value and the name is filled in only
if it was empty. -/
def refresh_asset_data (a : Asset) (resp : Option RawQuote) : Asset × FlashKind :=
  match fetch_market_data resp with
  | none => (a, .warning)
  | some md =>
    let name' := if strTruthy md.name && !(strTruthy a.name) then md.name else a.name
    ({ a with
        current_price := md.current_price
        price_yesterday := md.price_yesterday
        fifty_two_week_high := md.fifty_two_week_high
        fifty_two_week_low := md.fifty_two_week_low
        name := name' },
     .success)

/-- Concrete data used to evaluate the theorems on explicit inputs. -/
def sampleUser : User := ⟨1, "Alice"⟩

def samplePlatform : Platform := ⟨1, "Broker"⟩

def sampleAccount : Account := ⟨1, 1, 1, "TFSA", "Alice TFSA", some 50⟩

def sampleAsset : Asset :=
  ⟨1, 1, "AAA", none, some 10, some 100, some 1000,
   some 150, some 140, some 160, some 90⟩

def sampleAsset2 : Asset :=
  ⟨2, 1, "BBB", none, some 4, some 50, some 200,
   some 40, some 45, some 60, some 30⟩

def sampleDB : DB := ⟨[sampleUser], [samplePlatform], [sampleAccount], [sampleAsset]⟩

def sampleDB2 : DB :=
  ⟨[sampleUser], [samplePlatform], [sampleAccount], [sampleAsset, sampleAsset2]⟩

/-- An asset whose invested amount is zero. -/
def zeroTiAsset : Asset :=
  ⟨3, 1, "CCC", none, some 2, some 0, some 0, some 10, some 10, some 12, some 8⟩

def zeroTiDB : DB := ⟨[sampleUser], [samplePlatform], [sampleAccount], [zeroTiAsset]⟩

/-- A store with no rows at all. -/
def emptyDB : DB := ⟨[], [], [], []⟩

/-- An existing asset whose stored current price is the number 0. -/
def zeroPriceAsset : Asset :=
  ⟨1, 1, "ZRO", none, some 5, some 100, some 500, some 0, none, none, none⟩

/-- An existing asset whose current price is unknown (null). -/
def noPriceAsset : Asset :=
  ⟨1, 1, "NOP", none, some 5, some 100, some 500, none, none, none, none⟩

/-- An existing asset for the buy-simulation example (quantity 5, invested
500, current price 120). -/
def buyAsset : Asset :=
  ⟨1, 1, "BUY", none, some 5, some 100, some 500, some 120, none, none, none⟩

/-- An existing asset for the sell-simulation example (quantity 10, invested
1000). -/
def sellAsset : Asset :=
  ⟨1, 1, "SEL", none, some 10, some 100, some 1000, some 150, none, none, none⟩

/-- An asset with a stored current price, about to be refreshed. -/
def storedAsset : Asset :=
  ⟨1, 1, "AAA", none, some 10, some 100, some 1000,
   some 100, some 99, some 120, some 80⟩

/-- A provider response whose current price field is not a number. -/
def badQuote : RawQuote :=
  ⟨.nonNumeric, .num 90, .num 120, .num 80, none⟩

theorem accumulate_cons (f : α → ℚ) (x : α) (l : List α) (c : ℚ) :
    (x :: l).foldl (fun s y => s + f y) c = l.foldl (fun s y => s + f y) (c + f x) := rfl

theorem foldl_add_eq_add_sum (f : α → ℚ) (l : List α) (c : ℚ) :
    l.foldl (fun s y => s + f y) c = c + (l.map f).sum := by
  induction l generalizing c with
  | nil => simp
  | cons x xs ih => rw [accumulate_cons, ih, List.map_cons, List.sum_cons]; ring

/-- The running-sum accumulation equals the sum of the mapped list. -/
theorem accumulate_eq_sum (f : α → ℚ) (l : List α) :
    accumulate f l = (l.map f).sum := by
  rw [accumulate, foldl_add_eq_add_sum, zero_add]

/-- The accumulated total is invariant under reordering of the rows. -/
theorem accumulate_perm (f : α → ℚ) {l₁ l₂ : List α} (h : l₁.Perm l₂) :
    accumulate f l₁ = accumulate f l₂ := by
  rw [accumulate_eq_sum, accumulate_eq_sum]
  exact ((h.map f).sum_eq)

theorem insertDescBy_perm (key : α → ℚ) (x : α) (l : List α) :
    (insertDescBy key x l).Perm (x :: l) := by
  induction l with
  | nil => exact List.Perm.refl _
  | cons y ys ih =>
    by_cases h : key y ≤ key x
    · simp [insertDescBy, h]
    · simp only [insertDescBy, if_neg h]
      exact (ih.cons y).trans (List.Perm.swap x y ys)

theorem sortDescBy_perm (key : α → ℚ) (l : List α) :
    (sortDescBy key l).Perm l := by
  induction l with
  | nil => exact List.Perm.refl _
  | cons x xs ih =>
    exact (insertDescBy_perm key x (sortDescBy key xs)).trans (ih.cons x)

theorem pairwise_insertDescBy (key : α → ℚ) (x : α) (l : List α)
    (hl : l.Pairwise (fun a b => key b ≤ key a)) :
    (insertDescBy key x l).Pairwise (fun a b => key b ≤ key a) := by
  induction l with
  | nil => simp [insertDescBy]
  | cons y ys ih =>
    rcases List.pairwise_cons.mp hl with ⟨hy, hys⟩
    by_cases h : key y ≤ key x
    · simp only [insertDescBy, if_pos h]
      refine List.pairwise_cons.mpr ⟨?_, hl⟩
      intro b hb
      rcases List.mem_cons.mp hb with hb | hb
      · exact hb ▸ h
      · exact le_trans (hy b hb) h
    · simp only [insertDescBy, if_neg h]
      refine List.pairwise_cons.mpr ⟨?_, ih hys⟩
      intro b hb
      have hb' : b ∈ x :: ys := (insertDescBy_perm key x ys).mem_iff.mp hb
      rcases List.mem_cons.mp hb' with hb' | hb'
      · subst hb'; exact le_of_lt (lt_of_not_le h)
      · exact hy b hb'

/-- The stable descending sort is sorted: each element's key bounds from
above the keys of everything after it. -/
theorem sortDescBy_sorted (key : α → ℚ) (l : List α) :
    (sortDescBy key l).Pairwise (fun a b => key b ≤ key a) := by
  induction l with
  | nil => simp [sortDescBy]
  | cons x xs ih => exact pairwise_insertDescBy key x _ ih

theorem filter_insertDescBy (key : α → ℚ) (x : α) (l : List α) (c : ℚ) :
    (insertDescBy key x l).filter (fun a => key a == c) =
      if key x = c then x :: l.filter (fun a => key a == c)
      else l.filter (fun a => key a == c) := by
  induction l with
  | nil =>
    by_cases hx : key x = c
    · have bx : (key x == c) = true := by simp [hx]
      rw [if_pos hx]
      simp [insertDescBy, List.filter_cons, bx]
    · have bx : (key x == c) = false := by simp [hx]
      rw [if_neg hx]
      simp [insertDescBy, List.filter_cons, bx]
  | cons y ys ih =>
    by_cases h : key y ≤ key x
    · rw [insertDescBy, if_pos h]
      by_cases hx : key x = c
      · have bx : (key x == c) = true := by simp [hx]
        rw [if_pos hx, List.filter_cons, bx]
        simp
      · have bx : (key x == c) = false := by simp [hx]
        rw [if_neg hx, List.filter_cons, bx]
        simp
    · have hxy : key x < key y := lt_of_not_le h
      rw [insertDescBy, if_neg h, List.filter_cons, List.filter_cons, ih]
      by_cases hy : key y = c
      · have hx : ¬ key x = c := by
          intro hc; exact absurd (hy.trans hc.symm) (ne_of_gt hxy)
        have by' : (key y == c) = true := by simp [hy]
        rw [by', if_neg hx, if_neg hx]
      · have by' : (key y == c) = false := by simp [hy]
        rw [by']
        by_cases hx : key x = c
        · rw [if_pos hx, if_pos hx]
          simp
        · rw [if_neg hx, if_neg hx]

/-- Stability of the descending sort: the elements sharing any one key value
appear in the sorted list in exactly their input order. -/
theorem sortDescBy_stable (key : α → ℚ) (l : List α) (c : ℚ) :
    (sortDescBy key l).filter (fun a => key a == c) =
      l.filter (fun a => key a == c) := by
  induction l with
  | nil => rfl
  | cons x xs ih =>
    rw [sortDescBy, filter_insertDescBy]
    by_cases hx : key x = c
    · simp [List.filter_cons, hx, ih]
    · simp [List.filter_cons, hx, ih]

/-- C2: at every entity level produced by the dashboard computation
(per-asset, account, platform, user, global), `profit_loss_percent` is 0
whenever `total_invested ≤ 0`, and the division by `total_invested` appears
only under the `total_invested > 0` guard (shown by the converse conjuncts),
so no input divides by a non-positive amount at any level. -/
theorem C2_profit_percent_guard :
    (∀ a : Asset, ((assetMetrics a).total_invested ≤ 0 →
        (assetMetrics a).profit_loss_percent = 0) ∧
      ((assetMetrics a).total_invested > 0 →
        (assetMetrics a).profit_loss_percent =
          (assetMetrics a).profit_loss_dollars / (assetMetrics a).total_invested * 100)) ∧
    (∀ (details : List AssetDetail) (acc : Account),
      ((accountSummary details acc).total_invested ≤ 0 →
        (accountSummary details acc).profit_loss_percent = 0) ∧
      ((accountSummary details acc).total_invested > 0 →
        (accountSummary details acc).profit_loss_percent =
          (accountSummary details acc).profit_loss_amount /
            (accountSummary details acc).total_invested * 100)) ∧
    (∀ (db : DB) (details : List AssetDetail) (u : User) (p : Platform),
      (platformSummary db details u p).total_invested ≤ 0 →
      (platformSummary db details u p).profit_loss_percent = 0) ∧
    (∀ (db : DB) (details : List AssetDetail) (u : User),
      (userSummary db details u).total_invested ≤ 0 →
      (userSummary db details u).profit_loss_percent = 0) ∧
    (∀ db : DB, globalTotalInvested db ≤ 0 → globalProfitLossPercent db = 0) := by
  refine ⟨fun a => ⟨fun h => ?_, fun h => ?_⟩,
    fun details acc => ⟨fun h => ?_, fun h => ?_⟩,
    fun db details u p h => ?_, fun db details u h => ?_, fun db h => ?_⟩
  · simp only [assetMetrics] at h ⊢
    rw [if_neg (not_lt.mpr h)]
  · simp only [assetMetrics] at h ⊢
    rw [if_pos h]
  · simp only [accountSummary] at h ⊢
    rw [if_neg (not_lt.mpr h)]
  · simp only [accountSummary] at h ⊢
    rw [if_pos h]
  · simp only [platformSummary] at h ⊢
    rw [if_neg (not_lt.mpr h)]
  · simp only [userSummary] at h ⊢
    rw [if_neg (not_lt.mpr h)]
  · rw [globalProfitLossPercent, if_neg (not_lt.mpr h)]

/-- Witness for C2 at a concrete store whose only asset has zero invested:
every level reports a zero percentage. -/
theorem C2_profit_percent_guard_witness :
    (assetMetrics zeroTiAsset).profit_loss_percent = 0 ∧
    globalProfitLossPercent emptyDB = 0 := by
  constructor
  · exact (C2_profit_percent_guard.1 zeroTiAsset).1 (by norm_num [assetMetrics, zeroTiAsset])
  · exact C2_profit_percent_guard.2.2.2.2 emptyDB
      (le_of_eq (show globalTotalInvested emptyDB = 0 from rfl))

/-- C3: the daily-snapshot step keeps at most one history row per calendar
date: the invariant is preserved by every run; an existing row for today
suppresses the insert and keeps its value; a missing row leads to exactly one
inserted row carrying the just-computed value; and two runs on the same date
leave the same history as one run. -/
theorem C3_snapshot_once_per_day :
    (∀ (h : List Snapshot) (d : String) (v : ℚ),
      atMostOnePerDate h → atMostOnePerDate (snapshotStep h d v)) ∧
    (∀ (h : List Snapshot) (d : String) (v : ℚ),
      h.any (fun s => s.snapshot_date == d) = true → snapshotStep h d v = h) ∧
    (∀ (h : List Snapshot) (d : String) (v : ℚ),
      h.any (fun s => s.snapshot_date == d) = false →
      snapshotStep h d v = h ++ [⟨d, v⟩]) ∧
    (∀ (h : List Snapshot) (d : String) (v v' : ℚ),
      snapshotStep (snapshotStep h d v) d v' = snapshotStep h d v) := by
  refine ⟨?_, ?_, ?_, ?_⟩
  · intro h d v hinv
    by_cases hex : h.any (fun s => s.snapshot_date == d) = true
    · rw [snapshotStep, if_pos hex]; exact hinv
    · rw [snapshotStep, if_neg hex]
      intro d'
      rw [List.filter_append]
      by_cases hd : d = d'
      · subst hd
        have hnil : h.filter (fun s => s.snapshot_date == d) = [] := by
          rw [List.filter_eq_nil_iff]
          intro s hs hsd
          exact hex (List.any_eq_true.mpr ⟨s, hs, hsd⟩)
        rw [hnil]
        simp only [List.nil_append]
        exact le_trans (List.length_filter_le _ _) (by simp)
      · have hone : List.filter (fun s => s.snapshot_date == d')
            ([⟨d, v⟩] : List Snapshot) = [] := by
          simp only [List.filter, List.filter_nil]
          have : ((⟨d, v⟩ : Snapshot).snapshot_date == d') = false := by
            simp only [beq_eq_false_iff_ne, ne_eq]
            exact hd
          rw [this]
        rw [hone, List.append_nil]
        exact hinv d'
  · intro h d v hex
    rw [snapshotStep, if_pos hex]
  · intro h d v hex
    rw [snapshotStep, if_neg (by rw [hex]; exact Bool.false_ne_true)]
  · intro h d v v'
    by_cases hex : h.any (fun s => s.snapshot_date == d) = true
    · have h1 : snapshotStep h d v = h := by rw [snapshotStep, if_pos hex]
      rw [h1, snapshotStep, if_pos hex]
    · have h1 : snapshotStep h d v = h ++ [⟨d, v⟩] := by
        rw [snapshotStep, if_neg hex]
      have h2 : (h ++ [(⟨d, v⟩ : Snapshot)]).any (fun s => s.snapshot_date == d) = true := by
        simp [List.any_append]
      rw [h1, snapshotStep, if_pos h2]

/-- Witness for C3 at a concrete one-row history: a second run on the same
date changes nothing, and a run on an empty history inserts the one row. -/
theorem C3_snapshot_once_per_day_witness :
    atMostOnePerDate (snapshotStep [⟨"2026-10-12", 5⟩] "2026-10-12" 7) ∧
    snapshotStep [⟨"2026-10-12", 5⟩] "2026-10-12" 7 = [⟨"2026-10-12", 5⟩] ∧
    snapshotStep [] "2026-10-12" 7 = [⟨"2026-10-12", 7⟩] := by
  refine ⟨C3_snapshot_once_per_day.1 _ _ _ ?_, C3_snapshot_once_per_day.2.1 _ _ _ (by decide),
    C3_snapshot_once_per_day.2.2.1 _ _ _ (by decide)⟩
  intro d
  exact le_trans (List.length_filter_le _ _) (by simp)

/-- C10: the per-asset derivation reports `day_change_percent` as the number
0 whenever `current_price` or `price_yesterday` is unknown or
`price_yesterday ≤ 0` — indistinguishable from an unchanged price, which also
yields 0 — whereas `percent_to_52_week_high` is reported as absent (`none`)
in the analogous case. -/
theorem C10_day_change_default_zero :
    ∀ a : Asset,
      ((a.current_price = none ∨ a.price_yesterday = none ∨
        (∃ py, a.price_yesterday = some py ∧ py ≤ 0)) →
        (assetMetrics a).day_change_percent = 0) ∧
      ((a.current_price = none ∨ a.fifty_two_week_high = none ∨
        (∃ h, a.fifty_two_week_high = some h ∧ h ≤ 0)) →
        (assetMetrics a).percent_to_52_week_high = none) ∧
      (∀ p : ℚ, 0 < p → a.current_price = some p → a.price_yesterday = some p →
        (assetMetrics a).day_change_percent = 0) := by
  intro a
  refine ⟨fun h => ?_, fun h => ?_, fun p hp hcp hpy => ?_⟩
  · simp only [assetMetrics]
    rcases h with h | h | ⟨py, hpy, hle⟩
    · rw [h]
    · rw [h]; rcases a.current_price with _ | cp <;> rfl
    · rw [hpy]
      rcases a.current_price with _ | cp
      · rfl
      · simp only
        rw [if_neg (not_lt.mpr hle)]
  · simp only [assetMetrics]
    rcases h with h | h | ⟨hi, hhi, hle⟩
    · rw [h]
    · rw [h]; rcases a.current_price with _ | cp <;> rfl
    · rw [hhi]
      rcases a.current_price with _ | cp
      · rfl
      · simp only
        rw [if_neg (not_lt.mpr hle)]
  · simp only [assetMetrics]
    rw [hcp, hpy]
    simp only
    rw [if_pos hp]
    field_simp

/-- Witness for C10: an asset with no recorded prior-close price reports a
zero day change and an absent distance to the 52-week high. -/
theorem C10_day_change_default_zero_witness :
    (assetMetrics noPriceAsset).day_change_percent = 0 ∧
    (assetMetrics noPriceAsset).percent_to_52_week_high = none := by
  exact ⟨(C10_day_change_default_zero noPriceAsset).1 (Or.inr (Or.inl rfl)),
    (C10_day_change_default_zero noPriceAsset).2.1 (Or.inl rfl)⟩

/-- Replacing the asset rows leaves the join function itself unchanged (it
reads only the parent tables). -/
theorem joinRow_assets_irrel (db : DB) (l : List Asset) :
    joinRow { db with assets := l } = joinRow db := rfl

/-- C1: `current_value_of_assets` at every aggregation level is the exact sum
of the children's values: an account sums its assets' `current_value`, a
platform sums its accounts, a user sums their platforms, and the global value
sums every joined asset; and with exact rational arithmetic the global value
is unchanged under any reordering of the asset rows. -/
theorem C1_rollup_exact_sums :
    (∀ (details : List AssetDetail) (acc : Account),
      (accountSummary details acc).current_value_of_assets =
        ((accountSummary details acc).assets.map (fun d => d.metrics.current_value)).sum) ∧
    (∀ (db : DB) (details : List AssetDetail) (u : User) (p : Platform),
      (platformSummary db details u p).current_value_of_assets =
        ((platformSummary db details u p).accounts.map
          (fun a => a.current_value_of_assets)).sum) ∧
    (∀ (db : DB) (details : List AssetDetail) (u : User),
      (userSummary db details u).current_value_of_assets =
        ((userSummary db details u).platforms.map
          (fun p => p.current_value_of_assets)).sum) ∧
    (∀ db : DB, globalCurrentValue db =
      ((allAssetsDetailed db).map (fun d => d.metrics.current_value)).sum) ∧
    (∀ (db : DB) (l : List Asset), db.assets.Perm l →
      globalCurrentValue { db with assets := l } = globalCurrentValue db) := by
  refine ⟨?_, ?_, ?_, ?_, ?_⟩
  · intro details acc
    simp only [accountSummary]
    exact accumulate_eq_sum _ _
  · intro db details u p
    simp only [platformSummary]
    exact accumulate_eq_sum _ _
  · intro db details u
    simp only [userSummary]
    exact accumulate_eq_sum _ _
  · intro db
    exact accumulate_eq_sum _ _
  · intro db l hperm
    simp only [globalCurrentValue, allAssetsDetailed, joinRow_assets_irrel]
    exact accumulate_perm _ ((hperm.symm).filterMap (joinRow db))

/-- Witness for C1: with the two concrete asset rows swapped, the global
current value of the sample store is unchanged. -/
theorem C1_rollup_exact_sums_witness :
    globalCurrentValue { sampleDB2 with assets := [sampleAsset2, sampleAsset] } =
      globalCurrentValue sampleDB2 := by
  exact C1_rollup_exact_sums.2.2.2.2 sampleDB2 [sampleAsset2, sampleAsset] (by decide)

/-- C4: for an existing asset and a non-negative price the sell simulation
returns `total_proceeds = quantity × price`,
`profit_dollars = total_proceeds − original_cost` and
`profit_percent = profit_dollars / original_cost × 100` (0 when
`original_cost ≤ 0`), with `original_cost` given by `originalCost` (the
`total_invested` → `quantity × average_cost` → 0 fallback); it fails exactly
when the asset does not exist or the price is negative. -/
theorem C4_sell_simulation :
    ∀ (assets : List Asset) (aid : Nat) (price : ℚ),
      ((∃ e, simulateSell assets aid price = .error e) ↔
        (assets.find? (fun x => x.asset_id == aid) = none ∨ price < 0)) ∧
      (∀ a, assets.find? (fun x => x.asset_id == aid) = some a → 0 ≤ price →
        simulateSell assets aid price = .ok
          { asset_id := aid
            hypothetical_sale_price := price
            total_proceeds := a.quantity.getD 0 * price
            original_cost := originalCost a
            profit_dollars := a.quantity.getD 0 * price - originalCost a
            profit_percent := if originalCost a > 0
              then (a.quantity.getD 0 * price - originalCost a) / originalCost a * 100
              else 0 }) := by
  intro assets aid price
  constructor
  · constructor
    · rintro ⟨e, he⟩
      cases hf : assets.find? (fun x => x.asset_id == aid) with
      | none => exact Or.inl rfl
      | some a =>
        right
        by_cases hp : price < 0
        · exact hp
        · simp only [simulateSell, hf, if_neg hp] at he
          exact absurd he (by simp)
    · intro h
      rcases h with h | h
      · exact ⟨.assetNotFound, by simp only [simulateSell, h]⟩
      · cases hf : assets.find? (fun x => x.asset_id == aid) with
        | none => exact ⟨.assetNotFound, by simp only [simulateSell, hf]⟩
        | some a => exact ⟨.negativePrice, by simp only [simulateSell, hf, if_pos h]⟩
  · intro a ha hp
    simp only [simulateSell, ha, if_neg (not_lt.mpr hp)]

/-- Witness for C4: the spec's concrete example — quantity 10, invested 1000,
hypothetical price 150 — yields proceeds 1500, profit 500, percent 50. -/
theorem C4_sell_simulation_witness :
    simulateSell [sellAsset] 1 150 = .ok
      { asset_id := 1, hypothetical_sale_price := 150, total_proceeds := 1500,
        original_cost := 1000, profit_dollars := 500, profit_percent := 50 } := by
  have h := (C4_sell_simulation [sellAsset] 1 150).2 sellAsset rfl (by norm_num)
  rw [h]
  simp only [sellAsset, originalCost, Option.getD_some, Except.ok.injEq, SellResult.mk.injEq]
  norm_num

/-- Counterexample to C5 as stated: an existing asset whose current price is
the (known) number 0 makes the investment-amount branch divide by zero
(app.py:927); the raised error is caught and reported, so the simulation
produces no result instead of the claimed values. -/
theorem C5_buy_zero_price_counterexample :
    simulateBuy [zeroPriceAsset] 1 (.num 600) .absent = .errDivisionByZero ∧
    simulateBuy [zeroPriceAsset] 1 (.num 600) .absent ≠
      .ok (mkBuyResult zeroPriceAsset 0 (600 / 0) (600 / 0 * 0)) := by
  exact ⟨by decide, by decide⟩

/-- C5 (amended): for an existing asset with known current price, a positive
investment amount together with a positive current price yields
`shares_purchased = investment_amount / current_price`; with no investment
amount, a positive `shares_to_buy` yields `shares_purchased = shares_to_buy`;
in both cases `cost_of_purchase = shares_purchased × current_price` and the
projected totals satisfy the claimed formulas (including the
`new_total_quantity > 0` division guard for the new average cost). -/
theorem C5_buy_simulation_amended :
    ∀ (assets : List Asset) (aid : Nat) (a : Asset),
      assets.find? (fun x => x.asset_id == aid) = some a →
      ∀ p : ℚ, a.current_price = some p →
      ((∀ (amt : ℚ) (shr : FormNum), 0 < amt → 0 < p →
        simulateBuy assets aid (.num amt) shr =
          .ok (mkBuyResult a p (amt / p) (amt / p * p))) ∧
       (∀ s : ℚ, 0 < s →
        simulateBuy assets aid .absent (.num s) = .ok (mkBuyResult a p s (s * p))) ∧
       (∀ shares cost : ℚ,
        (mkBuyResult a p shares cost).shares_purchased = shares ∧
        (mkBuyResult a p shares cost).cost_of_purchase = cost ∧
        (mkBuyResult a p shares cost).new_total_quantity = a.quantity.getD 0 + shares ∧
        (mkBuyResult a p shares cost).new_total_invested = a.total_invested.getD 0 + cost ∧
        (mkBuyResult a p shares cost).new_average_cost =
          (if a.quantity.getD 0 + shares > 0 then
            (a.total_invested.getD 0 + cost) / (a.quantity.getD 0 + shares) else 0) ∧
        (mkBuyResult a p shares cost).new_current_total_value =
          (a.quantity.getD 0 + shares) * p)) := by
  intro assets aid a hf p hp
  refine ⟨fun amt shr hamt hppos => ?_, fun s hs => ?_, fun shares cost => ?_⟩
  · have hcond : ¬(FormNum.num amt = .absent ∧ shr = .absent) := by
      rintro ⟨h1, _⟩; cases h1
    simp only [simulateBuy, if_neg hcond, hf, hp]
    rw [if_neg (not_le.mpr hamt), if_neg (ne_of_gt hppos)]
    rw [if_pos (div_pos hamt hppos)]
  · have hcond : (FormNum.absent = FormNum.absent ∧ FormNum.num s = FormNum.absent) ↔ False := by
      simp
    simp only [simulateBuy, hcond, if_false, hf, hp]
    rw [if_neg (not_le.mpr hs)]
    rw [if_neg (show ¬(True ∧ FormNum.num s = FormNum.absent) by rintro ⟨_, h2⟩; cases h2)]
  · simp [mkBuyResult]

/-- Witness for the amended C5: the spec's concrete example — quantity 5,
invested 500, price 120, investment amount 600 — yields 5 shares, total
quantity 10, total invested 1100, average cost 110. -/
theorem C5_buy_simulation_amended_witness :
    simulateBuy [buyAsset] 1 (.num 600) .absent =
      .ok (mkBuyResult buyAsset 120 (600 / 120) (600 / 120 * 120)) ∧
    (mkBuyResult buyAsset 120 (600 / 120) (600 / 120 * 120)).shares_purchased = 5 ∧
    (mkBuyResult buyAsset 120 (600 / 120) (600 / 120 * 120)).new_total_quantity = 10 ∧
    (mkBuyResult buyAsset 120 (600 / 120) (600 / 120 * 120)).new_total_invested = 1100 ∧
    (mkBuyResult buyAsset 120 (600 / 120) (600 / 120 * 120)).new_average_cost = 110 := by
  refine ⟨(C5_buy_simulation_amended [buyAsset] 1 buyAsset rfl 120 rfl).1 600 .absent
    (by norm_num) (by norm_num), ?_, ?_, ?_, ?_⟩ <;>
    · simp [mkBuyResult, buyAsset]
      norm_num

/-- Counterexample to C6 as stated: for an existing asset with unknown
current price but both numeric inputs absent, the required-input validation
error (app.py:902) fires before the asset is even looked up, so the
price-unavailable outcome does not take precedence. -/
theorem C6_price_unavailable_counterexample :
    simulateBuy [noPriceAsset] 1 .absent .absent = .errInputRequired ∧
    simulateBuy [noPriceAsset] 1 .absent .absent ≠ .warnPriceUnavailable := by
  exact ⟨by decide, by decide⟩

/-- C6 (amended): for a buy-simulation request naming an existing asset whose
current price is null, provided at least one of the two numeric inputs is
present (valid or not), the outcome is the price-unavailable warning. -/
theorem C6_price_unavailable_amended :
    ∀ (assets : List Asset) (aid : Nat) (inv shr : FormNum) (a : Asset),
      ¬(inv = .absent ∧ shr = .absent) →
      assets.find? (fun x => x.asset_id == aid) = some a →
      a.current_price = none →
      simulateBuy assets aid inv shr = .warnPriceUnavailable := by
  intro assets aid inv shr a hne hf hp
  simp only [simulateBuy, if_neg hne, hf, hp]

/-- Witness for the amended C6 at a concrete no-price asset with a present
investment amount. -/
theorem C6_price_unavailable_amended_witness :
    simulateBuy [noPriceAsset] 1 (.num 5) .absent = .warnPriceUnavailable := by
  exact C6_price_unavailable_amended [noPriceAsset] 1 (.num 5) .absent noPriceAsset
    (by rintro ⟨h1, _⟩; cases h1) rfl rfl

/-- C7: the ranked asset list holds exactly the joined assets with positive
invested amount (the percentage is always defined in the derivation), in
descending `profit_loss_percent` order with ties kept in input order; the
best performer is the head and the worst the last, and a single qualifying
asset is both; the account ranking applies the same descending order to the
accounts with positive invested capital. -/
theorem C7_ranking_order_and_membership :
    ∀ db : DB,
      (∀ d : AssetDetail, d ∈ allAssetsRanked db ↔
        (d ∈ allAssetsDetailed db ∧ 0 < d.metrics.total_invested)) ∧
      (allAssetsRanked db).Pairwise
        (fun a b => b.metrics.profit_loss_percent ≤ a.metrics.profit_loss_percent) ∧
      (∀ c : ℚ, (allAssetsRanked db).filter
          (fun d => d.metrics.profit_loss_percent == c) =
        (validAssetsForRanking db).filter
          (fun d => d.metrics.profit_loss_percent == c)) ∧
      (bestPerformingAsset db = (allAssetsRanked db).head? ∧
       worstPerformingAsset db = (allAssetsRanked db).getLast?) ∧
      ((validAssetsForRanking db).length = 1 →
        bestPerformingAsset db = worstPerformingAsset db ∧
        (bestPerformingAsset db).isSome = true) ∧
      (allAccountsRanked db).Perm
        ((allAccountsPerformance db).filter (fun a => decide (0 < a.total_invested))) ∧
      (allAccountsRanked db).Pairwise
        (fun a b => b.profit_loss_percent ≤ a.profit_loss_percent) := by
  intro db
  refine ⟨?_, sortDescBy_sorted _ _, fun c => sortDescBy_stable _ _ c, ⟨rfl, rfl⟩, ?_,
    sortDescBy_perm _ _, sortDescBy_sorted _ _⟩
  · intro d
    have h1 : d ∈ allAssetsRanked db ↔ d ∈ validAssetsForRanking db :=
      (sortDescBy_perm _ _).mem_iff
    rw [h1, validAssetsForRanking, List.mem_filter, decide_eq_true_eq]
  · intro hlen
    have hl : (allAssetsRanked db).length = 1 :=
      ((sortDescBy_perm _ _).length_eq).trans hlen
    rcases List.length_eq_one.mp hl with ⟨d, hd⟩
    rw [bestPerformingAsset, worstPerformingAsset, hd]
    exact ⟨rfl, rfl⟩

/-- Witness for C7 at the one-asset sample store: the single qualifying asset
is both the best and the worst performer. -/
theorem C7_ranking_order_and_membership_witness :
    bestPerformingAsset sampleDB = worstPerformingAsset sampleDB ∧
    (bestPerformingAsset sampleDB).isSome = true := by
  exact (C7_ranking_order_and_membership sampleDB).2.2.2.2.1 (by decide)

/-- Counterexample to C8 as stated: a successful gateway response whose
current-price field is non-numeric does not leave the stored price at its
previous value — the refresh overwrites it with null. -/
theorem C8_refresh_overwrite_counterexample :
    (refresh_asset_data storedAsset (some badQuote)).1.current_price = none ∧
    storedAsset.current_price = some 100 ∧
    (refresh_asset_data storedAsset (some badQuote)).1.current_price ≠
      storedAsset.current_price := by
  exact ⟨by decide, rfl, by decide⟩

/-- C8 (amended): when the gateway call fails, all stored fields keep their
previous values and the operation completes with a warning; when it succeeds,
each price field is overwritten with the coerced fetched value — so a
non-numeric field is stored as null rather than propagated — the manual
fields are untouched, and the operation completes successfully. -/
theorem C8_refresh_amended :
    (∀ a : Asset, refresh_asset_data a none = (a, .warning)) ∧
    (∀ (a : Asset) (r : RawQuote),
      (refresh_asset_data a (some r)).1.current_price = coerceNum r.current_price ∧
      (refresh_asset_data a (some r)).1.price_yesterday = coerceNum r.price_yesterday ∧
      (refresh_asset_data a (some r)).1.fifty_two_week_high =
        coerceNum r.fifty_two_week_high ∧
      (refresh_asset_data a (some r)).1.fifty_two_week_low =
        coerceNum r.fifty_two_week_low ∧
      (refresh_asset_data a (some r)).1.quantity = a.quantity ∧
      (refresh_asset_data a (some r)).1.total_invested = a.total_invested ∧
      (refresh_asset_data a (some r)).2 = .success) ∧
    (∀ g : GVal, (∀ q : ℚ, g ≠ .num q) → coerceNum g = none) := by
  refine ⟨fun a => rfl, fun a r => ⟨rfl, rfl, rfl, rfl, rfl, rfl, rfl⟩, fun g hg => ?_⟩
  cases g with
  | missing => rfl
  | num q => exact absurd rfl (hg q)
  | nonNumeric => rfl

/-- Witness for C8 (amended): a non-numeric field coerces to null, and a
failed fetch leaves the concrete stored asset unchanged with a warning. -/
theorem C8_refresh_amended_witness :
    coerceNum GVal.nonNumeric = none ∧
    refresh_asset_data storedAsset none = (storedAsset, .warning) := by
  exact ⟨C8_refresh_amended.2.2 GVal.nonNumeric (fun q h => nomatch h),
    C8_refresh_amended.1 storedAsset⟩

/-- Every chart row kept by the positive-groups filter has a positive value. -/
theorem chartRows_mem_pos (vals : List (String × ℚ)) :
    ∀ g ∈ chartRows vals, 0 < g.2 := by
  intro g hg
  simp only [chartRows] at hg
  by_cases he : (vals.filter (fun g => decide (0 < g.2))).isEmpty
  · rw [if_pos he] at hg
    cases hg
  · rw [if_neg he] at hg
    exact of_decide_eq_true (List.mem_filter.mp hg).2

/-- A group with non-positive total is omitted from the chart. -/
theorem chartRows_omits_nonpos (vals : List (String × ℚ)) :
    ∀ g ∈ vals, g.2 ≤ 0 → g ∉ chartRows vals := by
  intro g _ hle hg
  exact absurd (chartRows_mem_pos vals g hg) (not_lt.mpr hle)

/-- When no group is positive the chart is the empty sequence. -/
theorem chartRows_empty_of_all_nonpos (vals : List (String × ℚ)) :
    (∀ g ∈ vals, g.2 ≤ 0) → chartRows vals = [] := by
  intro h
  have hnil : vals.filter (fun g => decide (0 < g.2)) = [] := by
    rw [List.filter_eq_nil_iff]
    intro g hg hc
    exact absurd (of_decide_eq_true hc) (not_lt.mpr (h g hg))
  simp only [chartRows, hnil]
  rfl

/-- C9: in each of the three allocation breakdowns every emitted
(label, value) pair is positive, any group with non-positive total is
omitted, and when no group is positive the breakdown is the empty sequence
(the chart is omitted). -/
theorem C9_allocation_charts :
    ∀ db : DB,
      ((∀ g ∈ accountTypeChart db, 0 < g.2) ∧
       (∀ g ∈ accountTypeValues db, g.2 ≤ 0 → g ∉ accountTypeChart db) ∧
       ((∀ g ∈ accountTypeValues db, g.2 ≤ 0) → accountTypeChart db = [])) ∧
      ((∀ g ∈ userAllocChart db, 0 < g.2) ∧
       (∀ g ∈ userAllocValues db, g.2 ≤ 0 → g ∉ userAllocChart db) ∧
       ((∀ g ∈ userAllocValues db, g.2 ≤ 0) → userAllocChart db = [])) ∧
      ((∀ g ∈ accountAllocChart db, 0 < g.2) ∧
       (∀ g ∈ accountAllocValues db, g.2 ≤ 0 → g ∉ accountAllocChart db) ∧
       ((∀ g ∈ accountAllocValues db, g.2 ≤ 0) → accountAllocChart db = [])) := by
  intro db
  exact ⟨⟨chartRows_mem_pos _, chartRows_omits_nonpos _, chartRows_empty_of_all_nonpos _⟩,
    ⟨chartRows_mem_pos _, chartRows_omits_nonpos _, chartRows_empty_of_all_nonpos _⟩,
    ⟨chartRows_mem_pos _, chartRows_omits_nonpos _, chartRows_empty_of_all_nonpos _⟩⟩

/-- Witness for C9: the sample store's single account-type group is emitted
with its positive total 1550, and the empty store yields an omitted chart. -/
theorem C9_allocation_charts_witness :
    (0:ℚ) < (("TFSA", (1550:ℚ)) : String × ℚ).2 ∧
    accountTypeChart emptyDB = [] := by
  constructor
  · have hv : accountTypeValues sampleDB = [("TFSA", 1550)] := by
      simp [accountTypeValues, breakdownAccountSummaries, breakdownData, sampleDB, userSummary,
        userPlatforms, platformSummary, accountsOnPlatform, accountSummary, allAssetsDetailed,
        joinRow, sampleAsset, sampleAccount, sampleUser, samplePlatform, accumulate,
        assetMetrics, addGroup]
      norm_num
    have hc : accountTypeChart sampleDB = [("TFSA", 1550)] := by
      rw [accountTypeChart, hv]
      norm_num [chartRows, List.filter]
    have hmem : (("TFSA", (1550:ℚ)) : String × ℚ) ∈ accountTypeChart sampleDB := by
      rw [hc]
      exact List.mem_singleton_self _
    exact (C9_allocation_charts sampleDB).1.1 _ hmem
  · exact (C9_allocation_charts emptyDB).1.2.2 (fun g hg => by
      simp [accountTypeValues, breakdownAccountSummaries, breakdownData, emptyDB] at hg)

end InvestmentTracker
